import Mathlib

/-!
Verification of the jsonpointer.js specification against a shallow embedding
of `src/jsonpointer.js`.

The source is a JavaScript implementation of RFC 6901 JSON Pointer resolution.
JavaScript values are embedded as the inductive type `JSValue`; JavaScript
strings are embedded as Lean `String` (a list of characters); the regex-based
string replacements of the source are embedded as character-list scans with
the same leftmost, non-overlapping semantics as a global `String.replace`.
Functions of the source keep their names (`getPointedValue`,
`isValidJSONPointer`, `parsePointer`, `unescapeReferenceToken`, `getValue`,
`isObject`, `isArray`, `isNumber`, `isString`, `isUndefined`).
-/

/--
A JavaScript value, as far as this library can observe one.

`undefined` is JavaScript `undefined` (the library's "absent" marker).
`host` is an inherited member of `Object.prototype` (for example the
`toString` function): property access on a plain object created by
`JSON.parse` falls back to `Object.prototype` when the key is not an own
key, and the library performs no own-key check before indexing.  For the
traversal, such values behave as scalars (`typeof` is `"function"` for all
of the modelled prototype members, so `isObject` is false on them).
-/
inductive JSValue where
  | undefined : JSValue
  | null : JSValue
  | bool : Bool → JSValue
  | num : Int → JSValue
  | str : String → JSValue
  | arr : List JSValue → JSValue
  | obj : List (String × JSValue) → JSValue
  | host : String → JSValue

/-- Error messages of the source (`ErrorMessage` enum, lines 55-65). -/
inductive ErrorMessage where
  | hyphenIsNotSupportedInArrayContext : ErrorMessage
  | invalidDocument : ErrorMessage
  | invalidDocumentType : ErrorMessage
  | invalidPointer : ErrorMessage
  | nonNumberTokenInArrayContext : ErrorMessage
  | tokenWithLeadingZeroInArrayContext : ErrorMessage
deriving DecidableEq

/-- Source `isObject`: `'object' === typeof o && null !== o`.  True for plain
objects and arrays (JavaScript arrays have `typeof` `"object"`), false for
`null`, strings, numbers, booleans, `undefined` and functions. -/
def isObject : JSValue → Bool
  | .obj _ => true
  | .arr _ => true
  | _ => false

/-- Source `isArray`: `Array.isArray(a)`. -/
def isArray : JSValue → Bool
  | .arr _ => true
  | _ => false

/-- Source `isString`: `'string' === typeof s || s instanceof String`.
Boxed `String` objects are not representable in this embedding; only the
primitive-string half of the disjunction is modelled. -/
def isString : JSValue → Bool
  | .str _ => true
  | _ => false

/-- Source `isUndefined`: `'undefined' === typeof v`. -/
def isUndefined : JSValue → Bool
  | .undefined => true
  | _ => false

/-- Leftmost non-overlapping replacement of the two-character pattern `~1`
by `/`, as performed by `rawReferenceToken.replace(/~1/g, '/')` (first
iteration of the `SPECIAL_CHARACTERS` loop, lines 149-154). -/
def replaceTilde1 : List Char → List Char
  | [] => []
  | [c] => [c]
  | c1 :: c2 :: rest =>
    if c1 = '~' ∧ c2 = '1' then '/' :: replaceTilde1 rest
    else c1 :: replaceTilde1 (c2 :: rest)

/-- Leftmost non-overlapping replacement of the two-character pattern `~0`
by `~`, as performed by `referenceToken.replace(/~0/g, '~')` (second
iteration of the `SPECIAL_CHARACTERS` loop). -/
def replaceTilde0 : List Char → List Char
  | [] => []
  | [c] => [c]
  | c1 :: c2 :: rest =>
    if c1 = '~' ∧ c2 = '0' then '~' :: replaceTilde0 rest
    else c1 :: replaceTilde0 (c2 :: rest)

/-- Source `unescapeReferenceToken` (lines 143-157): replace every `~1` by
`/`, then every `~0` by `~`, each in one left-to-right pass. -/
def unescapeReferenceToken (rawReferenceToken : String) : String :=
  String.mk (replaceTilde0 (replaceTilde1 rawReferenceToken.data))

/-- Replacement of every `~` by `~0`, one left-to-right pass. -/
def expandTilde : List Char → List Char
  | [] => []
  | c :: rest => if c = '~' then '~' :: '0' :: expandTilde rest else c :: expandTilde rest

/-- Replacement of every `/` by `~1`, one left-to-right pass. -/
def expandSlash : List Char → List Char
  | [] => []
  | c :: rest => if c = '/' then '~' :: '1' :: expandSlash rest else c :: expandSlash rest

/-- Modelled from the spec: re-escaping of a reference token, "literal
`~`→`~0`, `/`→`~1`, in reverse substitution order" (spec section 8).  The
source has no escaping function; this definition follows the spec's words
and is used only to state the round-trip claim. -/
def escapeReferenceToken (token : String) : String :=
  String.mk (expandSlash (expandTilde token.data))

/-- Whether a character list contains an occurrence of `~0` or of `~1`
(the hypothesis of the round-trip claim: "tokens containing `~0` or `~1`"). -/
def containsEscapeSeq : List Char → Bool
  | [] => false
  | [_] => false
  | c1 :: c2 :: rest =>
    if c1 = '~' ∧ (c2 = '0' ∨ c2 = '1') then true else containsEscapeSeq (c2 :: rest)

/-- A raw reference token is properly escaped when every `~` in it is
immediately followed by `0` or `1` and it contains no `/` (tokens produced
by splitting a pointer on `/` never contain `/`). -/
def properlyEscaped : List Char → Bool
  | [] => true
  | [c] => c ≠ '~' && c ≠ '/'
  | c1 :: c2 :: rest =>
    if c1 = '~' then (c2 = '0' || c2 = '1') && properlyEscaped rest
    else c1 ≠ '/' && properlyEscaped (c2 :: rest)

/-- Decimal digit test used throughout (`0`-`9`). -/
def isDigitChar (c : Char) : Bool := '0' ≤ c && c ≤ '9'

/-- Hexadecimal digit test. -/
def isHexDigitChar (c : Char) : Bool :=
  isDigitChar c || ('a' ≤ c && c ≤ 'f') || ('A' ≤ c && c ≤ 'F')

/-- Octal digit test. -/
def isOctalDigitChar (c : Char) : Bool := '0' ≤ c && c ≤ '7'

/-- Binary digit test. -/
def isBinaryDigitChar (c : Char) : Bool := c = '0' || c = '1'

/-- Modelled from ECMAScript: the white-space and line-terminator characters
stripped by `ToNumber` on strings (tab, LF, VT, FF, CR, space, NBSP, line
and paragraph separators, BOM; the remaining Unicode space-category
characters are outside this embedding). -/
def isJsWhitespace (c : Char) : Bool :=
  c = ' ' || c = '\t' || c = '\n' || c = '\r' ||
  c.toNat = 11 || c.toNat = 12 || c.toNat = 160 ||
  c.toNat = 0x2028 || c.toNat = 0x2029 || c.toNat = 0xfeff

/-- Strip leading and trailing JavaScript white space. -/
def trimJsWhitespace (cs : List Char) : List Char :=
  ((cs.dropWhile isJsWhitespace).reverse.dropWhile isJsWhitespace).reverse

/-- ECMAScript `ExponentPart` followed by end of input: `e` or `E`, an
optional sign, then one or more decimal digits. -/
def exponentPart : List Char → Bool
  | 'e' :: '+' :: rest => !rest.isEmpty && rest.all isDigitChar
  | 'e' :: '-' :: rest => !rest.isEmpty && rest.all isDigitChar
  | 'e' :: rest => !rest.isEmpty && rest.all isDigitChar
  | 'E' :: '+' :: rest => !rest.isEmpty && rest.all isDigitChar
  | 'E' :: '-' :: rest => !rest.isEmpty && rest.all isDigitChar
  | 'E' :: rest => !rest.isEmpty && rest.all isDigitChar
  | _ => false

/-- ECMAScript `StrUnsignedDecimalLiteral` consuming the whole input:
`Infinity`, or digits with an optional fraction and exponent, or a fraction
with no integer part. -/
def strUnsignedDecimalLiteral (cs : List Char) : Bool :=
  if cs = "Infinity".data then true
  else
    let ds := cs.takeWhile isDigitChar
    let rest := cs.dropWhile isDigitChar
    if ds.isEmpty then
      match rest with
      | '.' :: rest2 =>
        let ds2 := rest2.takeWhile isDigitChar
        let rest3 := rest2.dropWhile isDigitChar
        !ds2.isEmpty && (rest3.isEmpty || exponentPart rest3)
      | _ => false
    else
      match rest with
      | [] => true
      | '.' :: rest2 =>
        let rest3 := rest2.dropWhile isDigitChar
        rest3.isEmpty || exponentPart rest3
      | _ => exponentPart rest

/-- ECMAScript `StrDecimalLiteral` consuming the whole input: an optional
sign then an unsigned decimal literal. -/
def strDecimalLiteral : List Char → Bool
  | '+' :: rest => strUnsignedDecimalLiteral rest
  | '-' :: rest => strUnsignedDecimalLiteral rest
  | cs => strUnsignedDecimalLiteral cs

/-- ECMAScript `StrNumericLiteral` consuming the whole input: a hexadecimal,
octal or binary integer literal, or a decimal literal. -/
def strNumericLiteral (cs : List Char) : Bool :=
  match cs with
  | '0' :: 'x' :: rest => !rest.isEmpty && rest.all isHexDigitChar
  | '0' :: 'X' :: rest => !rest.isEmpty && rest.all isHexDigitChar
  | '0' :: 'o' :: rest => !rest.isEmpty && rest.all isOctalDigitChar
  | '0' :: 'O' :: rest => !rest.isEmpty && rest.all isOctalDigitChar
  | '0' :: 'b' :: rest => !rest.isEmpty && rest.all isBinaryDigitChar
  | '0' :: 'B' :: rest => !rest.isEmpty && rest.all isBinaryDigitChar
  | _ => strDecimalLiteral cs

/-- Source `isNumber` (lines 215-217): `!isNaN(Number(n))` for a string
argument.  Modelled from ECMAScript `ToNumber` on strings: white space is
stripped, the empty remainder converts to `0` (so `isNumber "" = true`),
and otherwise the remainder must be a complete numeric literal.  The
conversion therefore accepts far more than base-10 integers: `"1.5"`,
`" 2"`, `"1e2"`, `"-1"`, `"0x10"` and `"Infinity"` all pass. -/
def isNumber (s : String) : Bool :=
  let cs := trimJsWhitespace s.data
  cs.isEmpty || strNumericLiteral cs

/-- The claim's spec-side notion of a base-10 integer string (an optional
minus sign followed by one or more decimal digits); used only to state the
claims, never as part of the embedding of the source. -/
def isBase10IntegerString (s : String) : Bool :=
  match s.data with
  | '-' :: rest => !rest.isEmpty && rest.all isDigitChar
  | cs => !cs.isEmpty && cs.all isDigitChar

/-- Source check `token.length > 1 && '0' === token[0]` (line 179). -/
def hasLeadingZero (token : String) : Bool :=
  match token.data with
  | c :: _ :: _ => c = '0'
  | _ => false

/-- Value of a nonempty digit string, most significant digit first. -/
def digitsToNat : List Char → Nat → Nat
  | [], acc => acc
  | c :: rest, acc => digitsToNat rest (acc * 10 + (c.toNat - 48))

/-- Modelled from ECMAScript: a JavaScript array stores its elements under
the canonical decimal property keys `"0"`, `"1"`, ...; indexing an array
with string `token` therefore hits an element exactly when `token` is the
canonical decimal numeral (nonempty, all digits, no leading zero except
`"0"` itself) of an index.  Returns that index when so, `none` otherwise. -/
def canonicalIndex (token : String) : Option Nat :=
  let cs := token.data
  if !cs.isEmpty && cs.all isDigitChar && (cs.head? ≠ some '0' || cs = ['0'])
  then some (digitsToNat cs 0) else none

/-- Modelled from ECMAScript: `context[token]` for an array context —
the element at the canonical index named by `token`, `undefined` when the
token is not a canonical index or the index is out of bounds.  (No property
of `Array.prototype` has a name accepted by `isNumber`, so the prototype
chain is unreachable in the array branch of `getValue`.) -/
def arrayElementAccess (elems : List JSValue) (token : String) : JSValue :=
  match canonicalIndex token with
  | some n => elems.getD n .undefined
  | none => .undefined

/-- Own-key lookup in an object's field list, last binding winning, as for
duplicate keys in `JSON.parse`. -/
def lookupField : List (String × JSValue) → String → Option JSValue
  | [], _ => none
  | (k, v) :: rest, key =>
    match lookupField rest key with
    | some v' => some v'
    | none => if k = key then some v else none

/-- Modelled from ECMAScript: the own property keys of `Object.prototype`
whose values a plain-object property read can reach (all are functions, so
`typeof` gives `"function"` on each; `__proto__`, an accessor returning
`Object.prototype` itself, is also listed and likewise embedded as an
opaque `host` value). -/
def objectPrototypeKeys : List String :=
  ["constructor", "hasOwnProperty", "isPrototypeOf", "propertyIsEnumerable",
   "toLocaleString", "toString", "valueOf", "__proto__",
   "__defineGetter__", "__defineSetter__", "__lookupGetter__", "__lookupSetter__"]

/-- Modelled from ECMAScript: `context[token]` for a plain-object context —
the own property when present, else the inherited `Object.prototype`
member, else `undefined`. -/
def objectPropertyAccess (fields : List (String × JSValue)) (key : String) : JSValue :=
  match lookupField fields key with
  | some v => v
  | none => if objectPrototypeKeys.contains key then .host key else .undefined

/-- Source `getValue` (lines 167-192): unescape the token; in array context
reject `-`, then non-numeric tokens, then tokens with a leading zero, and
otherwise index the array; in object context index the object; in any other
context return `undefined`.  The branch order matches the source's
`isArray` / `isObject` tests (arrays satisfy both, and the array branch
comes first; every other constructor satisfies neither except `obj`). -/
def getValue (context : JSValue) (rawToken : String) : Except ErrorMessage JSValue :=
  let token := unescapeReferenceToken rawToken
  match context with
  | .arr elems =>
    if token = "-" then .error .hyphenIsNotSupportedInArrayContext
    else if isNumber token = false then .error .nonNumberTokenInArrayContext
    else if hasLeadingZero token then .error .tokenWithLeadingZeroInArrayContext
    else .ok (arrayElementAccess elems token)
  | .obj fields => .ok (objectPropertyAccess fields token)
  | _ => .ok .undefined

/-- Whether the regular expression `(\/[^\/]*)+` matches at the head of the
character list: a match needs at least one group, a group starts with `/`,
and the `[^\/]*` tail of a group may be empty, so a match at a position
exists exactly when the character there is `/`. -/
def nonEmptyPointerRegexpMatchesAt : List Char → Bool
  | c :: _ => c == '/'
  | [] => false

/-- Source `NON_EMPTY_POINTER_REGEXP.test(pointer)` (line 47 and line 116):
an unanchored search, succeeding when the regular expression matches at some
position of the string. -/
def nonEmptyPointerRegexpTest : List Char → Bool
  | [] => false
  | c :: rest => nonEmptyPointerRegexpMatchesAt (c :: rest) || nonEmptyPointerRegexpTest rest

/-- Source `isValidJSONPointer` (lines 108-122): false for non-strings, true
for the empty string, and otherwise the result of the unanchored regular
expression test. -/
def isValidJSONPointer (pointer : JSValue) : Bool :=
  match pointer with
  | .str s => if s = "" then true else nonEmptyPointerRegexpTest s.data
  | _ => false

/-- JavaScript `pointer.split('/')` on the character level: the (always
nonempty) list of separator-free groups, in order. -/
def splitOnSlash : List Char → List String
  | [] => [""]
  | c :: rest =>
    if c = '/' then "" :: splitOnSlash rest
    else
      match splitOnSlash rest with
      | g :: gs => (String.mk (c :: g.data)) :: gs
      | [] => [String.mk [c]]

/-- Source `parsePointer` (lines 131-135): split on `/`, reverse, and pop
the last item (the leading empty string of the split, for pointers that
start with `/`).  The returned list is leaf-to-root. -/
def parsePointer (pointer : String) : List String :=
  ((splitOnSlash pointer.data).reverse).dropLast

/-- Source while-loop of `getPointedValue` (lines 95-97), with the number of
remaining iterations made explicit: while the value is not `undefined` and a
token can still be popped off the end of the list, step with `getValue`.
The fuel argument only bounds the iteration count; `popLoop` below supplies
the exact bound, so the fuel never runs out before the list does. -/
def popLoopFuel : Nat → JSValue → List String → Except ErrorMessage JSValue
  | 0, value, _ => .ok value
  | fuel + 1, value, tokensList =>
    if isUndefined value then .ok .undefined
    else
      match tokensList.getLast? with
      | none => .ok value
      | some token =>
        match getValue value token with
        | .error e => .error e
        | .ok v => popLoopFuel fuel v tokensList.dropLast

/-- The source's while-loop: each iteration pops one token, so the list
length bounds the iteration count exactly. -/
def popLoop (value : JSValue) (tokensList : List String) : Except ErrorMessage JSValue :=
  popLoopFuel tokensList.length value tokensList

/-- JSON white space: space, tab, line feed, carriage return. -/
def isJsonWhitespace (c : Char) : Bool :=
  c = ' ' || c = '\t' || c = '\n' || c = '\r'

/-- Drop leading JSON white space. -/
def skipJsonWs (cs : List Char) : List Char := cs.dropWhile isJsonWhitespace

/-- One character of a JSON string body: a plain character (not `"`, `\`,
nor a control character) passes through; a backslash escape maps to the
escaped character.  Returns the decoded characters once the closing quote
is reached, `none` on a malformed body.  `\u` escapes are outside the
fragment modelled here. -/
def parseJsonStringBody : List Char → Option (List Char × List Char)
  | [] => none
  | '"' :: rest => some ([], rest)
  | '\\' :: e :: rest =>
    (match e with
     | '"' => some '"'
     | '\\' => some '\\'
     | '/' => some '/'
     | 'b' => some (Char.ofNat 8)
     | 'f' => some (Char.ofNat 12)
     | 'n' => some '\n'
     | 'r' => some '\r'
     | 't' => some '\t'
     | _ => none).bind fun c =>
      (parseJsonStringBody rest).map fun (body, rem) => (c :: body, rem)
  | c :: rest =>
    if c.toNat < 32 then none
    else (parseJsonStringBody rest).map fun (body, rem) => (c :: body, rem)

/-- A JSON integer numeral: an optional minus sign, then digits with no
leading zero (except `0` itself).  Returns the value and the remaining
characters. -/
def parseJsonInt (cs : List Char) : Option (Int × List Char) :=
  let (neg, cs') := match cs with
    | '-' :: rest => (true, rest)
    | _ => (false, cs)
  let ds := cs'.takeWhile isDigitChar
  let rest := cs'.dropWhile isDigitChar
  if ds.isEmpty then none
  else if ds.head? = some '0' && ds ≠ ['0'] then none
  else
    let n : Int := Int.ofNat (digitsToNat ds 0)
    some (if neg then -n else n, rest)

mutual
/-- Modelled from the spec: the external JSON text decoder (spec section 6),
here a recursive-descent parser over the JSON fragment with integer
numerals (fractions, exponents and `\u` escapes are outside the documents
this development evaluates).  The fuel argument strictly decreases on each
nested parse and each consumed separator; `jsonParse` supplies one unit per
input character plus one, which every JSON text stays below. -/
def parseJsonValue : Nat → List Char → Option (JSValue × List Char)
  | 0, _ => none
  | fuel + 1, cs =>
    match skipJsonWs cs with
    | 'n' :: 'u' :: 'l' :: 'l' :: rest => some (.null, rest)
    | 't' :: 'r' :: 'u' :: 'e' :: rest => some (.bool true, rest)
    | 'f' :: 'a' :: 'l' :: 's' :: 'e' :: rest => some (.bool false, rest)
    | '"' :: rest =>
      (parseJsonStringBody rest).map fun p => (JSValue.str (String.mk p.1), p.2)
    | '\x7b' :: rest =>
      (match skipJsonWs rest with
       | '\x7d' :: rem => some (JSValue.obj [], rem)
       | cs2 => parseJsonMember fuel [] cs2)
    | '[' :: rest =>
      (match skipJsonWs rest with
       | ']' :: rem => some (JSValue.arr [], rem)
       | cs2 =>
         (parseJsonValue fuel cs2).bind fun p => parseJsonArrayTail fuel [p.1] p.2)
    | cs' => (parseJsonInt cs').map fun p => (JSValue.num p.1, p.2)

/-- After one or more array elements: a comma and a further element, or the
closing bracket. -/
def parseJsonArrayTail : Nat → List JSValue → List Char → Option (JSValue × List Char)
  | 0, _, _ => none
  | fuel + 1, acc, cs =>
    match skipJsonWs cs with
    | ',' :: rest =>
      (parseJsonValue fuel rest).bind fun p => parseJsonArrayTail fuel (acc ++ [p.1]) p.2
    | ']' :: rest => some (JSValue.arr acc, rest)
    | _ => none

/-- One `"key": value` member followed by the rest of the object. -/
def parseJsonMember : Nat → List (String × JSValue) → List Char → Option (JSValue × List Char)
  | 0, _, _ => none
  | fuel + 1, acc, cs =>
    match skipJsonWs cs with
    | '"' :: rest =>
      (parseJsonStringBody rest).bind fun p =>
        match skipJsonWs p.2 with
        | ':' :: rem =>
          (parseJsonValue fuel rem).bind fun q =>
            parseJsonObjectTail fuel (acc ++ [(String.mk p.1, q.1)]) q.2
        | _ => none
    | _ => none

/-- After one or more object members: a comma and a further member, or the
closing brace. -/
def parseJsonObjectTail : Nat → List (String × JSValue) → List Char → Option (JSValue × List Char)
  | 0, _, _ => none
  | fuel + 1, acc, cs =>
    match skipJsonWs cs with
    | ',' :: rest => parseJsonMember fuel acc rest
    | '\x7d' :: rest => some (JSValue.obj acc, rest)
    | _ => none
end

/-- Modelled from the spec: `JSON.parse(target)` as used on line 84 — parse
one JSON value and require only white space after it; `none` models the
exception caught on line 86. -/
def jsonParse (text : String) : Option JSValue :=
  match parseJsonValue (text.length + 1) text.data with
  | some (v, rest) => if (skipJsonWs rest).isEmpty then some v else none
  | none => none

/-- Source `getPointedValue` (lines 75-100): reject non-string documents,
then invalid pointers, then unparseable documents, and otherwise run the
pop-driven while-loop over the reversed token list starting from the parsed
document.  The final `match` is exhaustive only for form's sake: a pointer
accepted by `isValidJSONPointer` is necessarily a string. -/
def getPointedValue (target : JSValue) (pointer : JSValue) : Except ErrorMessage JSValue :=
  if !(isString target) then .error .invalidDocumentType
  else if !(isValidJSONPointer pointer) then .error .invalidPointer
  else
    match target, pointer with
    | .str documentText, .str p =>
      (match jsonParse documentText with
       | none => Except.error .invalidDocument
       | some parsed => popLoop parsed (parsePointer p))
    | _, _ => .error .invalidPointer

/-- The spec's reference evaluation order: a root-to-leaf left fold of the
Evaluator over the token list, short-circuiting to "absent" as soon as the
context becomes "absent" (spec sections 2 and 4.5). -/
def foldSteps : JSValue → List String → Except ErrorMessage JSValue
  | value, [] => .ok value
  | value, token :: rest =>
    if isUndefined value then .ok .undefined
    else
      match getValue value token with
      | .error e => .error e
      | .ok v => foldSteps v rest

theorem isUndefined_eq_true {v : JSValue} : isUndefined v = true ↔ v = JSValue.undefined := by
  cases v <;> simp [isUndefined]

theorem getValue_error_mem (context : JSValue) (rawToken : String) (e : ErrorMessage)
    (h : getValue context rawToken = .error e) :
    e = .hyphenIsNotSupportedInArrayContext ∨ e = .nonNumberTokenInArrayContext ∨
    e = .tokenWithLeadingZeroInArrayContext := by
  cases context <;> simp [getValue] at h
  case arr elems =>
    split at h
    · exact Or.inl (Except.error.inj h).symm
    · split at h
      · exact Or.inr (Or.inl (Except.error.inj h).symm)
      · split at h
        · exact Or.inr (Or.inr (Except.error.inj h).symm)
        · exact absurd h (by simp)

theorem popLoopFuel_error_mem (fuel : Nat) (value : JSValue) (ts : List String)
    (e : ErrorMessage) (h : popLoopFuel fuel value ts = .error e) :
    e = .hyphenIsNotSupportedInArrayContext ∨ e = .nonNumberTokenInArrayContext ∨
    e = .tokenWithLeadingZeroInArrayContext := by
  induction fuel generalizing value ts with
  | zero => simp [popLoopFuel] at h
  | succ fuel ih =>
    simp only [popLoopFuel] at h
    split at h
    · exact absurd h (by simp)
    · split at h
      · exact absurd h (by simp)
      · split at h
        next heq =>
          exact getValue_error_mem _ _ _ ((Except.error.inj h) ▸ heq)
        next => exact ih _ _ h

/-- C7: in array context a token that unescapes to `-` fails with the
hyphen error (the first of the three checks, so it takes precedence over
the numeric and leading-zero checks), and in a non-array context no token
ever raises that failure. -/
theorem c7_hyphen_rejected (context : JSValue) (rawToken : String) :
    (isArray context = true → unescapeReferenceToken rawToken = "-" →
      getValue context rawToken = .error .hyphenIsNotSupportedInArrayContext) ∧
    (isArray context = false →
      getValue context rawToken ≠ .error .hyphenIsNotSupportedInArrayContext) := by
  constructor
  · intro ha hu
    cases context <;> simp [isArray] at ha
    simp [getValue, hu]
  · intro ha
    cases context <;> simp [isArray] at ha <;> simp [getValue]

/-- Witness for C7: `-` is rejected in an array context and accepted (as an
ordinary key) in an object context. -/
theorem c7_hyphen_rejected_witness :
    getValue (JSValue.arr [JSValue.num 1]) "-" =
      .error .hyphenIsNotSupportedInArrayContext ∧
    getValue (JSValue.obj [("a", JSValue.num 1)]) "-" ≠
      .error .hyphenIsNotSupportedInArrayContext :=
  ⟨(c7_hyphen_rejected (JSValue.arr [JSValue.num 1]) "-").1 rfl rfl,
   (c7_hyphen_rejected (JSValue.obj [("a", JSValue.num 1)]) "-").2 rfl⟩

/-- C8: in array context a numeric token of length greater than one that
begins with `0` fails with the leading-zero error, while the token `0`
itself resolves to the element at index 0, or to "absent" on an empty
array. -/
theorem c8_leading_zero (elems : List JSValue) (rawToken : String)
    (v : JSValue) (rest : List JSValue) :
    (isNumber (unescapeReferenceToken rawToken) = true →
      hasLeadingZero (unescapeReferenceToken rawToken) = true →
      getValue (JSValue.arr elems) rawToken =
        .error .tokenWithLeadingZeroInArrayContext) ∧
    getValue (JSValue.arr []) "0" = .ok JSValue.undefined ∧
    getValue (JSValue.arr (v :: rest)) "0" = .ok v := by
  refine ⟨?_, rfl, rfl⟩
  intro h1 h2
  have hne : unescapeReferenceToken rawToken ≠ "-" := by
    intro he; rw [he] at h2; exact absurd h2 (by decide)
  simp [getValue, hne, h1, h2]

/-- Witness for C8: `01` is rejected with the leading-zero error and `0`
resolves to index 0. -/
theorem c8_leading_zero_witness :
    getValue (JSValue.arr []) "01" = .error .tokenWithLeadingZeroInArrayContext ∧
    getValue (JSValue.arr []) "0" = .ok JSValue.undefined ∧
    getValue (JSValue.arr [JSValue.num 7]) "0" = .ok (JSValue.num 7) :=
  ⟨(c8_leading_zero [] "01" (JSValue.num 7) []).1 rfl rfl,
   (c8_leading_zero [] "01" (JSValue.num 7) []).2.1,
   (c8_leading_zero [JSValue.num 7] "01" (JSValue.num 7) []).2.2⟩

/-- C9: once the context is "absent" the pop-driven loop returns "absent"
whatever the remaining tokens are — so a later token that array context
would by itself reject, such as a `-` following an absent step, raises no
failure; resolving the pointer with tokens `b` then `-` against a document
with no key `b` is "absent". -/
theorem c9_short_circuit :
    (∀ tokensList : List String,
        popLoop JSValue.undefined tokensList = .ok JSValue.undefined) ∧
    getPointedValue (.str "\x7b\"a\":1\x7d") (.str "/b/-") = .ok JSValue.undefined := by
  refine ⟨fun ts => ?_, rfl⟩
  cases ts with
  | nil => rfl
  | cons t ts => rfl

/-- C10: in array context a token that passes the hyphen, numeric and
leading-zero checks but is not the canonical decimal numeral of an
in-bounds index resolves to "absent" — the array is indexed with the token
string itself as property key, so `-1`, `1.5`, ` 2` and `1e2` hit no
element. -/
theorem c10_non_canonical_absent (elems : List JSValue) (rawToken : String)
    (h1 : isNumber (unescapeReferenceToken rawToken) = true)
    (h2 : unescapeReferenceToken rawToken ≠ "-")
    (h3 : hasLeadingZero (unescapeReferenceToken rawToken) = false)
    (h4 : ∀ n, canonicalIndex (unescapeReferenceToken rawToken) = some n →
      elems.length ≤ n) :
    getValue (JSValue.arr elems) rawToken = .ok JSValue.undefined := by
  have ha : arrayElementAccess elems (unescapeReferenceToken rawToken) = JSValue.undefined := by
    unfold arrayElementAccess
    cases hc : canonicalIndex (unescapeReferenceToken rawToken) with
    | none => rfl
    | some n => exact List.getD_eq_default _ _ (h4 n hc)
  simp [getValue, h1, h2, h3, ha]

/-- Witness for C10: ` 2` passes the numeric check (JavaScript strips white
space in `Number`), yet resolves to "absent" on a three-element array even
though index 2 is in bounds, because the key ` 2` is not canonical. -/
theorem c10_non_canonical_absent_witness :
    getValue (JSValue.arr [JSValue.num 10, JSValue.num 20, JSValue.num 30]) " 2" =
      .ok JSValue.undefined :=
  c10_non_canonical_absent _ " 2" rfl (by decide) rfl
    (fun n h => by
      rw [show canonicalIndex (unescapeReferenceToken " 2") = none from rfl] at h
      exact absurd h (by simp))

/-- C1 counterexample: `1.5` is not a base-10 integer, yet in array context
it passes the source's numeric check (JavaScript `Number("1.5")` is not
`NaN`), so resolution returns "absent" instead of failing with the
non-number error the claim requires. -/
theorem c1_counterexample_decimal_token :
    isBase10IntegerString "1.5" = false ∧
    getValue (JSValue.arr [JSValue.num 1, JSValue.num 2, JSValue.num 3]) "1.5" =
      .ok JSValue.undefined :=
  ⟨rfl, rfl⟩

/-- C1 (amended): in array context the non-number failure occurs exactly
when the unescaped token is not `-` and fails the JavaScript
`Number`-conversion check `isNumber` — a strictly broader acceptance than
base-10 integers, under which `1.5`, ` 2` and `1e2` are numeric and do not
raise. -/
theorem c1_amended_nonNumber_iff (elems : List JSValue) (rawToken : String) :
    getValue (JSValue.arr elems) rawToken = .error .nonNumberTokenInArrayContext ↔
    (unescapeReferenceToken rawToken ≠ "-" ∧
     isNumber (unescapeReferenceToken rawToken) = false) := by
  by_cases h1 : unescapeReferenceToken rawToken = "-"
  · simp [getValue, h1]
  · by_cases h2 : isNumber (unescapeReferenceToken rawToken) = false
    · simp [getValue, h1, h2]
    · by_cases h3 : hasLeadingZero (unescapeReferenceToken rawToken)
      · simp [getValue, h1, h2, h3]
      · simp [getValue, h1, h2, h3]

theorem regexpTest_eq_contains (cs : List Char) :
    nonEmptyPointerRegexpTest cs = true ↔ '/' ∈ cs := by
  induction cs with
  | nil => simp [nonEmptyPointerRegexpTest]
  | cons c rest ih =>
    simp only [nonEmptyPointerRegexpTest, nonEmptyPointerRegexpMatchesAt,
      Bool.or_eq_true, beq_iff_eq, ih, List.mem_cons]
    exact or_congr eq_comm Iff.rfl

/-- C2 counterexample: the validating regular expression is unanchored, so
the non-empty string `a/b`, which does not start with `/`, is nevertheless
accepted — the claim requires `isValidPointer "a/b"` to be false. -/
theorem c2_counterexample_unanchored_regexp :
    isValidJSONPointer (JSValue.str "a/b") = true := rfl

/-- C2 (amended): the validator returns false for every non-string input
and true for the empty string, but for non-empty strings the unanchored
regular expression test accepts exactly the strings containing at least one
`/` — every `/`-group string is still accepted, yet so is e.g. `a/b`, and
only `/`-free non-empty strings such as `no-leading-slash` are rejected. -/
theorem c2_amended_validator (v : JSValue) (s : String) :
    (isString v = false → isValidJSONPointer v = false) ∧
    isValidJSONPointer (JSValue.str "") = true ∧
    ('/' ∈ s.data → isValidJSONPointer (JSValue.str s) = true) ∧
    (s ≠ "" → '/' ∉ s.data → isValidJSONPointer (JSValue.str s) = false) := by
  refine ⟨?_, rfl, ?_, ?_⟩
  · intro h
    cases v <;> simp_all [isString, isValidJSONPointer]
  · intro hmem
    by_cases hs : s = ""
    · simp [isValidJSONPointer, hs]
    · simp [isValidJSONPointer, hs]
      exact (regexpTest_eq_contains s.data).mpr hmem
  · intro hs hmem
    have hb : nonEmptyPointerRegexpTest s.data = false := by
      cases hb : nonEmptyPointerRegexpTest s.data with
      | false => rfl
      | true => exact absurd ((regexpTest_eq_contains s.data).mp hb) hmem
    simp [isValidJSONPointer, hs, hb]

/-- Witness for C2 (amended) at concrete inputs: a number is rejected, the
empty pointer and `a/b` are accepted, `no-leading-slash` is rejected. -/
theorem c2_amended_validator_witness :
    isValidJSONPointer (JSValue.num 42) = false ∧
    isValidJSONPointer (JSValue.str "") = true ∧
    isValidJSONPointer (JSValue.str "a/b") = true ∧
    isValidJSONPointer (JSValue.str "no-leading-slash") = false :=
  ⟨(c2_amended_validator (JSValue.num 42) "").1 rfl,
   (c2_amended_validator (JSValue.num 42) "").2.1,
   (c2_amended_validator (JSValue.num 42) "a/b").2.2.1 (by decide),
   (c2_amended_validator (JSValue.num 42) "no-leading-slash").2.2.2 (by decide) (by decide)⟩

/-- C5 counterexample: on an object with single own key `a`, the token
`toString` names no key, yet resolution is not "absent": property access
falls back to `Object.prototype` and returns the inherited `toString`
member. -/
theorem c5_counterexample_prototype_key :
    getValue (JSValue.obj [("a", JSValue.num 1)]) "toString" =
      .ok (JSValue.host "toString") ∧
    getValue (JSValue.obj [("a", JSValue.num 1)]) "toString" ≠ .ok JSValue.undefined := by
  refine ⟨rfl, ?_⟩
  rw [show getValue (JSValue.obj [("a", JSValue.num 1)]) "toString" =
    Except.ok (JSValue.host "toString") from rfl]
  simp

/-- C5 (amended): in object context the value stored under the unescaped
token is returned when the key is an own key; for an absent key the result
is "absent" only when the key does not name an `Object.prototype` member —
keys such as `toString` or `constructor` instead yield the inherited host
member. -/
theorem c5_amended_object_lookup (fields : List (String × JSValue)) (rawToken : String) :
    (∀ v, lookupField fields (unescapeReferenceToken rawToken) = some v →
      getValue (JSValue.obj fields) rawToken = .ok v) ∧
    (lookupField fields (unescapeReferenceToken rawToken) = none →
      objectPrototypeKeys.contains (unescapeReferenceToken rawToken) = false →
      getValue (JSValue.obj fields) rawToken = .ok JSValue.undefined) ∧
    (lookupField fields (unescapeReferenceToken rawToken) = none →
      objectPrototypeKeys.contains (unescapeReferenceToken rawToken) = true →
      getValue (JSValue.obj fields) rawToken =
        .ok (JSValue.host (unescapeReferenceToken rawToken))) := by
  refine ⟨?_, ?_, ?_⟩
  · intro v h
    simp [getValue, objectPropertyAccess, h]
  · intro h1 h2
    simp [getValue, objectPropertyAccess, h1, h2]
    simpa using h2
  · intro h1 h2
    simp [getValue, objectPropertyAccess, h1, h2]
    simpa using h2

/-- Witness for C5 (amended): an own key, a plain absent key, and an
inherited prototype key. -/
theorem c5_amended_object_lookup_witness :
    getValue (JSValue.obj [("a", JSValue.num 1)]) "a" = .ok (JSValue.num 1) ∧
    getValue (JSValue.obj [("a", JSValue.num 1)]) "b" = .ok JSValue.undefined ∧
    getValue (JSValue.obj [("a", JSValue.num 1)]) "valueOf" =
      .ok (JSValue.host "valueOf") :=
  ⟨(c5_amended_object_lookup [("a", JSValue.num 1)] "a").1 (JSValue.num 1) rfl,
   (c5_amended_object_lookup [("a", JSValue.num 1)] "b").2.1 rfl rfl,
   (c5_amended_object_lookup [("a", JSValue.num 1)] "valueOf").2.2 rfl rfl⟩

theorem popLoop_errors (value : JSValue) (ts : List String) :
    popLoop value ts ≠ .error .invalidDocumentType ∧
    popLoop value ts ≠ .error .invalidPointer ∧
    popLoop value ts ≠ .error .invalidDocument := by
  refine ⟨?_, ?_, ?_⟩ <;> intro h <;>
    rcases popLoopFuel_error_mem _ _ _ _ h with h' | h' | h' <;>
    exact absurd h' (by decide)

theorem valid_pointer_is_string (pointer : JSValue)
    (h : isValidJSONPointer pointer = true) : ∃ p, pointer = .str p := by
  cases pointer <;> simp [isValidJSONPointer] at h <;> exact ⟨_, rfl⟩

theorem getPointedValue_nonstring {target pointer : JSValue}
    (h : isString target = false) :
    getPointedValue target pointer = .error .invalidDocumentType := by
  simp [getPointedValue, h]

theorem getPointedValue_badPointer {target pointer : JSValue}
    (h1 : isString target = true) (h2 : isValidJSONPointer pointer = false) :
    getPointedValue target pointer = .error .invalidPointer := by
  simp [getPointedValue, h1, h2]

theorem getPointedValue_run (s p : String)
    (h2 : isValidJSONPointer (.str p) = true) :
    getPointedValue (JSValue.str s) (JSValue.str p) =
      (match jsonParse s with
       | none => Except.error .invalidDocument
       | some parsed => popLoop parsed (parsePointer p)) := by
  simp [getPointedValue, isString, h2]

/-- C6: the three document-level failures and their precedence.  A
non-string document gives InvalidDocumentType, even when the pointer is
also invalid; a string document with an invalid pointer gives
InvalidPointer, whatever the document text (so no parse outcome is
consulted before validation); and a string document with a valid pointer
gives InvalidDocument exactly when the text does not parse as JSON. -/
theorem c6_error_order (target pointer : JSValue) (s : String) :
    (getPointedValue target pointer = .error .invalidDocumentType ↔
      isString target = false) ∧
    (getPointedValue target pointer = .error .invalidPointer ↔
      (isString target = true ∧ isValidJSONPointer pointer = false)) ∧
    (getPointedValue (JSValue.str s) pointer = .error .invalidDocument ↔
      (isValidJSONPointer pointer = true ∧ jsonParse s = none)) := by
  refine ⟨?_, ?_, ?_⟩
  · cases hst : isString target with
    | false => simp [getPointedValue_nonstring hst, hst]
    | true =>
      cases hp : isValidJSONPointer pointer with
      | false => simp [getPointedValue_badPointer hst hp, hst]
      | true =>
        obtain ⟨p, rfl⟩ := valid_pointer_is_string pointer hp
        obtain ⟨t, rfl⟩ : ∃ t, target = JSValue.str t := by
          cases target <;> simp [isString] at hst <;> exact ⟨_, rfl⟩
        rw [getPointedValue_run t p hp]
        cases hj : jsonParse t with
        | none => simp [isString]
        | some doc => simp [isString, (popLoop_errors doc (parsePointer p)).1]
  · cases hst : isString target with
    | false => simp [getPointedValue_nonstring hst, hst]
    | true =>
      cases hp : isValidJSONPointer pointer with
      | false => simp [getPointedValue_badPointer hst hp, hst, hp]
      | true =>
        obtain ⟨p, rfl⟩ := valid_pointer_is_string pointer hp
        obtain ⟨t, rfl⟩ : ∃ t, target = JSValue.str t := by
          cases target <;> simp [isString] at hst <;> exact ⟨_, rfl⟩
        rw [getPointedValue_run t p hp]
        cases hj : jsonParse t with
        | none => simp
        | some doc => simp [(popLoop_errors doc (parsePointer p)).2.1]
  · cases hp : isValidJSONPointer pointer with
    | false => simp [getPointedValue_badPointer (show isString (JSValue.str s) = true from rfl) hp]
    | true =>
      obtain ⟨p, rfl⟩ := valid_pointer_is_string pointer hp
      rw [getPointedValue_run s p hp]
      cases hj : jsonParse s with
      | none => simp
      | some doc => simp [(popLoop_errors doc (parsePointer p)).2.2]

theorem replaceTilde1_cons_ne (c : Char) (cs : List Char) (h : c ≠ '~') :
    replaceTilde1 (c :: cs) = c :: replaceTilde1 cs := by
  cases cs with
  | nil => rfl
  | cons c2 rest =>
    simp only [replaceTilde1]
    rw [if_neg]
    exact fun hh => h hh.1

theorem replaceTilde0_cons_ne (c : Char) (cs : List Char) (h : c ≠ '~') :
    replaceTilde0 (c :: cs) = c :: replaceTilde0 cs := by
  cases cs with
  | nil => rfl
  | cons c2 rest =>
    simp only [replaceTilde0]
    rw [if_neg]
    exact fun hh => h hh.1

theorem replaceTilde1_tilde0 (cs : List Char) :
    replaceTilde1 ('~' :: '0' :: cs) = '~' :: '0' :: replaceTilde1 cs := by
  simp only [replaceTilde1]
  rw [if_neg (by decide)]
  exact congrArg _ (replaceTilde1_cons_ne '0' cs (by decide))

theorem replaceTilde1_tilde1 (cs : List Char) :
    replaceTilde1 ('~' :: '1' :: cs) = '/' :: replaceTilde1 cs := by
  simp only [replaceTilde1]
  rw [if_pos (by decide)]

theorem replaceTilde0_tilde0 (cs : List Char) :
    replaceTilde0 ('~' :: '0' :: cs) = '~' :: replaceTilde0 cs := by
  simp only [replaceTilde0]
  rw [if_pos (by decide)]

theorem expandTilde_cons_ne (c : Char) (cs : List Char) (h : c ≠ '~') :
    expandTilde (c :: cs) = c :: expandTilde cs := by
  simp [expandTilde, h]

theorem expandSlash_cons_ne (c : Char) (cs : List Char) (h : c ≠ '/') :
    expandSlash (c :: cs) = c :: expandSlash cs := by
  simp [expandSlash, h]

theorem expandTilde_tilde (cs : List Char) :
    expandTilde ('~' :: cs) = '~' :: '0' :: expandTilde cs := by
  simp [expandTilde]

theorem expandSlash_slash (cs : List Char) :
    expandSlash ('/' :: cs) = '~' :: '1' :: expandSlash cs := by
  simp [expandSlash]

theorem roundtrip_aux (cs : List Char) (h : properlyEscaped cs = true) :
    expandSlash (expandTilde (replaceTilde0 (replaceTilde1 cs))) = cs := by
  induction cs using properlyEscaped.induct with
  | case1 => rfl
  | case2 c =>
    simp only [properlyEscaped, Bool.and_eq_true, decide_eq_true_eq] at h
    simp [replaceTilde1, replaceTilde0, expandTilde, expandSlash, h.1, h.2]
  | case3 a b ih =>
    simp [properlyEscaped] at h
    obtain ⟨hab, hb⟩ := h
    cases hab with
    | inl ha =>
      subst ha
      rw [replaceTilde1_tilde0, replaceTilde0_tilde0, expandTilde_tilde,
        expandSlash_cons_ne '~' _ (by decide), expandSlash_cons_ne '0' _ (by decide),
        ih hb]
    | inr ha =>
      subst ha
      rw [replaceTilde1_tilde1, replaceTilde0_cons_ne '/' _ (by decide),
        expandTilde_cons_ne '/' _ (by decide), expandSlash_slash, ih hb]
  | case4 a b c hne ih =>
    simp [properlyEscaped, hne] at h
    obtain ⟨ha, hbc⟩ := h
    rw [replaceTilde1_cons_ne a _ hne, replaceTilde0_cons_ne a _ hne,
      expandTilde_cons_ne a _ hne, expandSlash_cons_ne a _ ha, ih hbc]

/-- C4 counterexample: `~~1` contains `~1`, but its first `~` is not part of
an escape sequence: unescaping yields `~/` and re-escaping that yields
`~0~1`, not the original raw token. -/
theorem c4_counterexample_roundtrip :
    containsEscapeSeq "~~1".data = true ∧
    escapeReferenceToken (unescapeReferenceToken "~~1") ≠ "~~1" := by
  refine ⟨rfl, ?_⟩
  rw [show escapeReferenceToken (unescapeReferenceToken "~~1") = "~0~1" from rfl]
  decide

/-- C4 (amended): for every raw token containing `~0` or `~1` in which
every `~` begins an escape sequence and which contains no `/` — as all
tokens produced by splitting a pointer on `/` do — unescaping and then
re-escaping yields the original raw token. -/
theorem c4_amended_roundtrip (s : String)
    (h1 : containsEscapeSeq s.data = true)
    (h2 : properlyEscaped s.data = true) :
    escapeReferenceToken (unescapeReferenceToken s) = s := by
  cases s with
  | mk data => exact congrArg String.mk (roundtrip_aux data h2)

/-- Witness for C4 (amended) on the token `a~0b~1c`. -/
theorem c4_amended_roundtrip_witness :
    containsEscapeSeq "a~0b~1c".data = true ∧
    properlyEscaped "a~0b~1c".data = true ∧
    escapeReferenceToken (unescapeReferenceToken "a~0b~1c") = "a~0b~1c" :=
  ⟨rfl, rfl, c4_amended_roundtrip "a~0b~1c" rfl rfl⟩

theorem reverse_dropLast {α : Type} (l : List α) :
    l.reverse.dropLast = (l.drop 1).reverse := by
  cases l with
  | nil => rfl
  | cons a t => simp [List.reverse_cons, List.dropLast_concat]

theorem popLoopFuel_reverse (l : List String) : ∀ (fuel : Nat) (v : JSValue),
    l.length ≤ fuel → popLoopFuel fuel v l.reverse = foldSteps v l := by
  induction l with
  | nil =>
    intro fuel v _
    cases fuel with
    | zero => rfl
    | succ f =>
      simp only [List.reverse_nil, popLoopFuel, foldSteps]
      cases hv : isUndefined v with
      | true => simp [isUndefined_eq_true.mp hv]
      | false => simp
  | cons t l ih =>
    intro fuel v hf
    cases fuel with
    | zero => simp at hf
    | succ f =>
      simp only [List.reverse_cons, popLoopFuel, foldSteps]
      cases hv : isUndefined v with
      | true => simp
      | false =>
        simp only [Bool.false_eq_true, if_false, List.getLast?_concat,
          List.dropLast_concat]
        cases hg : getValue v t with
        | error e => rfl
        | ok v2 => exact ih f v2 (Nat.le_of_succ_le_succ hf)

/-- C3: for a string document that parses and a pointer the validator
accepts, resolution equals the root-to-leaf left fold of the Evaluator over
the pointer's tokens (the split groups after the leading one), starting at
the parsed document — despite the reversed internal token list — and the
empty pointer resolves to the whole parsed document. -/
theorem c3_fold_root_to_leaf (d p : String) (doc : JSValue)
    (hparse : jsonParse d = some doc)
    (hvalid : isValidJSONPointer (JSValue.str p) = true) :
    getPointedValue (JSValue.str d) (JSValue.str p) =
      foldSteps doc ((splitOnSlash p.data).drop 1) ∧
    getPointedValue (JSValue.str d) (JSValue.str "") = .ok doc := by
  constructor
  · rw [getPointedValue_run d p hvalid, hparse]
    show popLoop doc (parsePointer p) = _
    unfold popLoop parsePointer
    rw [reverse_dropLast]
    exact popLoopFuel_reverse _ _ doc (by simp)
  · rw [getPointedValue_run d "" rfl, hparse]
    rfl

/-- Witness for C3 on the spec's running example: resolving `/a/b/1` equals
the root-to-leaf fold over tokens `a`, `b`, `1` and yields `2`, and the
empty pointer yields the whole parsed document. -/
theorem c3_fold_root_to_leaf_witness :
    (getPointedValue (JSValue.str "\x7b\"a\":\x7b\"b\":[1,2,3]\x7d\x7d")
        (JSValue.str "/a/b/1") =
      foldSteps (JSValue.obj [("a", JSValue.obj [("b",
          JSValue.arr [JSValue.num 1, JSValue.num 2, JSValue.num 3])])])
        ((splitOnSlash "/a/b/1".data).drop 1)) ∧
    getPointedValue (JSValue.str "\x7b\"a\":\x7b\"b\":[1,2,3]\x7d\x7d")
        (JSValue.str "") =
      .ok (JSValue.obj [("a", JSValue.obj [("b",
        JSValue.arr [JSValue.num 1, JSValue.num 2, JSValue.num 3])])]) ∧
    getPointedValue (JSValue.str "\x7b\"a\":\x7b\"b\":[1,2,3]\x7d\x7d")
        (JSValue.str "/a/b/1") =
      .ok (JSValue.num 2) :=
  ⟨(c3_fold_root_to_leaf "\x7b\"a\":\x7b\"b\":[1,2,3]\x7d\x7d" "/a/b/1"
      (JSValue.obj [("a", JSValue.obj [("b",
        JSValue.arr [JSValue.num 1, JSValue.num 2, JSValue.num 3])])]) rfl rfl).1,
   (c3_fold_root_to_leaf "\x7b\"a\":\x7b\"b\":[1,2,3]\x7d\x7d" "/a/b/1"
      (JSValue.obj [("a", JSValue.obj [("b",
        JSValue.arr [JSValue.num 1, JSValue.num 2, JSValue.num 3])])]) rfl rfl).2,
   rfl⟩
